import Mathlib

/-
Verification of the EthioRoute cost engine (src/script.js).

The engine is a pure, deterministic pipeline: route optimization, a transport
cost calculator, a tariff calculator, a customs-duty calculator and a tax
calculator, aggregated by an orchestrator.  JavaScript number arithmetic is
embedded over ℚ (exact rational arithmetic, no rounding except in the explicit
display-formatting helper formatETB).  Strings that the code builds purely as
human-readable notes are modelled as structured inductive values carrying the
same information; display names and the formatted total are kept as actual
strings.  The unknown-truck-type failure (a thrown TypeError in JavaScript,
from reading a property of `undefined` after a failed object-literal lookup)
is modelled with Except.

The truck lookup needs care: `TRUCK_PROFILES[truckType]` is a JavaScript
bracket lookup, which consults the prototype chain.  For a key that is an
`Object.prototype` member name (e.g. "toString") it finds an inherited
function instead of `undefined`, the subsequent `fuel_efficiency_km_l` read
gives `undefined` without throwing, and the arithmetic silently produces
NaN.  The exact-rational model (`TRUCK_PROFILES` as an own-property table,
`calculateTransportCost` over ℚ with Except) covers declared profiles and
keys with no property at all; the full bracket-lookup semantics, including
the silent-NaN path, is modelled by `truckProfilesBracket`, `JsValue` and
`calculateTransportCostJs` below.
-/

/- ===== 2. DATA CONFIGURATION (src/script.js lines 38-46) ===== -/

def EXPORT_DISCOUNT_FACTOR : ℚ := 0.60

def OPTIMIZATION_DISCOUNT : ℚ := 0.10

structure TruckProfile where
  fuel_efficiency_km_l : ℚ
  capacity_teu : ℚ
  type : String

/-- The own properties of the `TRUCK_PROFILES` object literal (lines 42-46):
only the three declared keys carry a profile.  The source reads this table
with a bracket lookup, which under JavaScript semantics also consults
`Object.prototype`; that full lookup is `truckProfilesBracket` below, and
`TRUCK_PROFILES t = some p` holds exactly when the bracket lookup finds the
declared profile `p` (lemma `bracket_profile_iff`). -/
def TRUCK_PROFILES (truckType : String) : Option TruckProfile :=
  if truckType = "40FT_DRY_VAN" then
    some { fuel_efficiency_km_l := 2.78, capacity_teu := 2, type := "General Cargo" }
  else if truckType = "40FT_REEFER" then
    some { fuel_efficiency_km_l := 2.5, capacity_teu := 2, type := "Refrigerated Cargo" }
  else if truckType = "15MT_FLATBED" then
    some { fuel_efficiency_km_l := 3.2, capacity_teu := 0, type := "Non-Containerized" }
  else none

/- ===== 3. CORE ENGINE LOGIC ===== -/

/-- The only failure the core engine can raise: the truck type has no profile
(in the source, `TRUCK_PROFILES[truckType]` is `undefined` and the subsequent
property read throws; no numeric result is produced). -/
inductive CalcError where
  | unknownTruckType
  deriving DecidableEq

structure TransportResult where
  fuelCostETB : ℚ
  driverCostETB : ℚ
  truckRentETB : ℚ
  totalTransportCost : ℚ
  totalLitersUsed : ℚ

/-- `calculateTransportCost` (lines 55-74) over exact rationals: fuel +
driver wage + truck rental, with billable days floored at 1.  A key without
a declared profile is modelled as failing; under full JavaScript semantics
this is exact for keys with no property at all (the TypeError on the
`fuel_efficiency_km_l` read of `undefined`), while `Object.prototype`
member names instead take a silent-NaN path, modelled separately by
`calculateTransportCostJs`. -/
def calculateTransportCost (distanceKm : ℚ) (truckType : String) (estimatedDays : ℚ)
    (driverDailyWage : ℚ) (fuelPrice : ℚ) (truckRentalCost : ℚ) :
    Except CalcError TransportResult :=
  match TRUCK_PROFILES truckType with
  | none => Except.error CalcError.unknownTruckType
  | some truck =>
    let daysToCharge := max 1 estimatedDays
    let totalLiters := distanceKm / truck.fuel_efficiency_km_l
    let fuelCostETB := totalLiters * fuelPrice
    let driverCostETB := daysToCharge * driverDailyWage
    let truckRentETB := daysToCharge * truckRentalCost
    let totalTransportCost := fuelCostETB + driverCostETB + truckRentETB
    Except.ok {
      fuelCostETB := fuelCostETB,
      driverCostETB := driverCostETB,
      truckRentETB := truckRentETB,
      totalTransportCost := totalTransportCost,
      totalLitersUsed := totalLiters }

/-- The own-property names of `Object.prototype`: for these keys the bracket
lookup on the rate-table object literal finds an inherited member (a
function, or for `__proto__` the prototype object itself) rather than
`undefined`. -/
def OBJECT_PROTOTYPE_MEMBERS : List String :=
  ["constructor", "hasOwnProperty", "isPrototypeOf", "propertyIsEnumerable",
   "toLocaleString", "toString", "valueOf", "__proto__", "__defineGetter__",
   "__defineSetter__", "__lookupGetter__", "__lookupSetter__"]

/-- What `TRUCK_PROFILES[truckType]` (line 56) evaluates to under JavaScript
object semantics: a declared truck profile (own property), an inherited
`Object.prototype` member (not `undefined`, but carrying no numeric
fields), or `undefined`. -/
inductive BracketLookup where
  | profile (p : TruckProfile)
  | inheritedObject
  | undefinedValue

/-- The bracket lookup `TRUCK_PROFILES[truckType]` including the prototype
chain: declared keys yield their profile, `Object.prototype` member names
yield an inherited non-profile object, every other key yields `undefined`. -/
def truckProfilesBracket (truckType : String) : BracketLookup :=
  match TRUCK_PROFILES truckType with
  | some p => BracketLookup.profile p
  | none =>
    if truckType ∈ OBJECT_PROTOTYPE_MEMBERS then BracketLookup.inheritedObject
    else BracketLookup.undefinedValue

/-- The JavaScript values flowing through the transport arithmetic: a finite
number (exact rational), NaN, or `undefined` (a missing property read).
Arithmetic coerces `undefined` to NaN, and NaN propagates.  Division by a
finite number is exact rational division: the only finite divisors in this
program are the table's fuel efficiencies, all nonzero (lemma
`fuel_efficiency_ne_zero`), so JavaScript's division-by-zero infinities are
unreachable here and are not modelled. -/
inductive JsValue where
  | num (q : ℚ)
  | nan
  | undef
  deriving DecidableEq

def JsValue.add : JsValue → JsValue → JsValue
  | JsValue.num a, JsValue.num b => JsValue.num (a + b)
  | _, _ => JsValue.nan

def JsValue.mul : JsValue → JsValue → JsValue
  | JsValue.num a, JsValue.num b => JsValue.num (a * b)
  | _, _ => JsValue.nan

def JsValue.div : JsValue → JsValue → JsValue
  | JsValue.num a, JsValue.num b => JsValue.num (a / b)
  | _, _ => JsValue.nan

structure JsTransportResult where
  fuelCostETB : JsValue
  driverCostETB : JsValue
  truckRentETB : JsValue
  totalTransportCost : JsValue
  totalLitersUsed : JsValue

/-- The arithmetic of `calculateTransportCost` (lines 57-73) with the looked
up `truck.fuel_efficiency_km_l` passed in as a JavaScript value: a number
for a declared profile, `undefined` for an inherited prototype member. -/
def transportArith (distanceKm : ℚ) (eff : JsValue)
    (estimatedDays driverDailyWage fuelPrice truckRentalCost : ℚ) : JsTransportResult :=
  let daysToCharge := max 1 estimatedDays
  let totalLiters := JsValue.div (JsValue.num distanceKm) eff
  let fuelCostETB := JsValue.mul totalLiters (JsValue.num fuelPrice)
  let driverCostETB := JsValue.mul (JsValue.num daysToCharge) (JsValue.num driverDailyWage)
  let truckRentETB := JsValue.mul (JsValue.num daysToCharge) (JsValue.num truckRentalCost)
  let totalTransportCost := JsValue.add (JsValue.add fuelCostETB driverCostETB) truckRentETB
  { fuelCostETB := fuelCostETB,
    driverCostETB := driverCostETB,
    truckRentETB := truckRentETB,
    totalTransportCost := totalTransportCost,
    totalLitersUsed := totalLiters }

/-- `calculateTransportCost` under full JavaScript object semantics: a key
with no property at all throws (the TypeError on reading
`fuel_efficiency_km_l` of `undefined`), but an inherited `Object.prototype`
member does NOT throw — the field read gives `undefined` and the arithmetic
silently produces NaN alongside the still-finite driver and rental costs. -/
def calculateTransportCostJs (distanceKm : ℚ) (truckType : String) (estimatedDays : ℚ)
    (driverDailyWage : ℚ) (fuelPrice : ℚ) (truckRentalCost : ℚ) :
    Except CalcError JsTransportResult :=
  match truckProfilesBracket truckType with
  | BracketLookup.undefinedValue => Except.error CalcError.unknownTruckType
  | BracketLookup.inheritedObject =>
    Except.ok (transportArith distanceKm JsValue.undef estimatedDays driverDailyWage
      fuelPrice truckRentalCost)
  | BracketLookup.profile truck =>
    Except.ok (transportArith distanceKm (JsValue.num truck.fuel_efficiency_km_l)
      estimatedDays driverDailyWage fuelPrice truckRentalCost)

/-- The duty note string (lines 81-86): either the fixed import-only text or
the text embedding the CIF value and the rate used. -/
inductive DutyNote where
  | importOnly
  | calculatedOn (cifValue : ℚ) (rate : ℚ)
  deriving DecidableEq

structure DutyResult where
  dutyCost : ℚ
  dutyNotes : DutyNote

/-- `calculateCustomsDuty` (lines 79-93). -/
def calculateCustomsDuty (cifValue : ℚ) (customsDutyRate : ℚ) (isExport : Bool) :
    DutyResult :=
  if isExport = false ∧ 0 < customsDutyRate then
    { dutyCost := cifValue * (customsDutyRate / 100),
      dutyNotes := DutyNote.calculatedOn cifValue customsDutyRate }
  else
    { dutyCost := 0, dutyNotes := DutyNote.importOnly }

/-- The `unit` discriminator of a tariff rule (lines 106-108); the
per-day-after-free-period kind carries its `free_days` field, which in the
source exists only on that rule. -/
inductive TariffUnit where
  | per_container
  | per_shipment
  | per_day_after_free_period (free_days : ℚ)
  deriving DecidableEq

structure TariffRule where
  name : String
  rate_birr : ℚ
  unit : TariffUnit
  is_export_eligible : Bool

/-- The base `notes` string of a tariff line (lines 118-127), structured. -/
inductive TariffNote where
  | baseRateOneContainer
  | fixedMandatoryFee
  | penaltyApplied (daysOverFreePeriod : ℚ) (freeDays : ℚ)
  | noPenaltyWithinFreePeriod
  deriving DecidableEq

/-- A tariff line's note: the base note, plus whether the export-discount
annotation was appended (line 134). -/
structure TariffNotes where
  base : TariffNote
  exportDiscountApplied : Bool
  deriving DecidableEq

structure BreakdownItem where
  name : String
  cost : ℚ
  notes : TariffNotes

structure TariffResult where
  totalTariffCost : ℚ
  breakdown : List BreakdownItem

/-- The display-name cleanup `name.replace(/\s*\(.*\)/, '')` (line 140): drop
the first parenthesized qualifier (through the last closing parenthesis,
matching the greedy regex) together with the whitespace before it. -/
def stripParen (s : String) : String :=
  let l := s.toList
  if l.contains '(' && l.contains ')' then
    let beforeParen := ((l.takeWhile (fun c => c ≠ '(')).reverse.dropWhile (fun c => c = ' ')).reverse
    let afterParen := (l.reverse.takeWhile (fun c => c ≠ ')')).reverse
    String.mk (beforeParen ++ afterParen)
  else s

/-- `DYNAMIC_TARIFFS` (lines 105-109): the fixed ordered rule list; the
handling and inspection rates come from the inputs, the storage-penalty rate
is the 192.00 constant with an 8-day free period. -/
def DYNAMIC_TARIFFS (handlingCost inspectionFee : ℚ) : List TariffRule :=
  [ { name := "Dry Port Handling (40ft)", rate_birr := handlingCost,
      unit := TariffUnit.per_container, is_export_eligible := true },
    { name := "Customs Inspection Fee (Fixed)", rate_birr := inspectionFee,
      unit := TariffUnit.per_shipment, is_export_eligible := false },
    { name := "Storage Penalty (40ft, per day after 8 days)", rate_birr := 192,
      unit := TariffUnit.per_day_after_free_period 8, is_export_eligible := false } ]

/-- One iteration of the `for (const tariff of DYNAMIC_TARIFFS)` loop body
(lines 111-145), threading the running total and the breakdown list. -/
def tariffStep (estimatedDays : ℚ) (isExport : Bool)
    (acc : ℚ × List BreakdownItem) (tariff : TariffRule) : ℚ × List BreakdownItem :=
  let discountMultiplier : ℚ := if isExport then 1 - EXPORT_DISCOUNT_FACTOR else 1
  let costNote : ℚ × TariffNote :=
    match tariff.unit with
    | TariffUnit.per_container => (tariff.rate_birr, TariffNote.baseRateOneContainer)
    | TariffUnit.per_shipment => (tariff.rate_birr, TariffNote.fixedMandatoryFee)
    | TariffUnit.per_day_after_free_period free_days =>
      let daysOverFreePeriod := max 0 (estimatedDays - free_days)
      if 0 < daysOverFreePeriod then
        (daysOverFreePeriod * tariff.rate_birr,
         TariffNote.penaltyApplied daysOverFreePeriod free_days)
      else
        (0, TariffNote.noPenaltyWithinFreePeriod)
  let finalCost := if isExport && tariff.is_export_eligible then
      costNote.1 * discountMultiplier
    else costNote.1
  if 0 < finalCost ∨ 0 < tariff.rate_birr then
    (acc.1 + finalCost,
     acc.2 ++ [{ name := stripParen tariff.name, cost := finalCost,
                 notes := { base := costNote.2,
                            exportDiscountApplied := isExport && tariff.is_export_eligible } }])
  else acc

/-- `calculateTariffCost` (lines 99-151). -/
def calculateTariffCost (estimatedDays : ℚ) (isExport : Bool)
    (handlingCost inspectionFee : ℚ) : TariffResult :=
  let r := (DYNAMIC_TARIFFS handlingCost inspectionFee).foldl
    (tariffStep estimatedDays isExport) (0, [])
  { totalTariffCost := r.1, breakdown := r.2 }

structure TaxResult where
  vatCost : ℚ
  whtCost : ℚ
  totalTax : ℚ

/-- `calculateTaxCost` (lines 156-165): VAT and WHT on the transport subtotal. -/
def calculateTaxCost (transportSubtotal : ℚ) (vatRate : ℚ) (whtRate : ℚ) : TaxResult :=
  let vatFactor := vatRate / 100
  let whtFactor := whtRate / 100
  let vatCost := transportSubtotal * vatFactor
  let whtCost := transportSubtotal * whtFactor
  { vatCost := vatCost, whtCost := whtCost, totalTax := vatCost + whtCost }

/-- The input record gathered by `handleCalculation` (lines 316-331). -/
structure ShipmentInput where
  distanceKm : ℚ
  estimatedDays : ℚ
  truckType : String
  isExport : Bool
  numStops : ℤ
  cifValue : ℚ
  customsDutyRate : ℚ
  driverCost : ℚ
  fuelPrice : ℚ
  truckRentalCost : ℚ
  vatRate : ℚ
  whtRate : ℚ
  handlingCost : ℚ
  inspectionFee : ℚ

/-- The `optimizationNotes` string (lines 178-182), structured: either the
fixed no-optimization text or the text carrying original distance, reduced
distance and the number of stops. -/
inductive OptimizationNote where
  | noRouteOptimizationApplied
  | routeOptimizationApplied (originalKm : ℚ) (reducedKm : ℚ) (stops : ℤ)
  deriving DecidableEq

structure OptimizationInfo where
  originalDistance : ℚ
  actualDistance : ℚ
  notes : OptimizationNote
  numStops : ℤ

structure CalculationResult where
  totalOptimizedCost : String
  transport : TransportResult
  tariffs : TariffResult
  duty : DutyResult
  tax : TaxResult
  rates : ShipmentInput
  optimization : OptimizationInfo
  isExport : Bool

/-- Comma insertion over a reversed digit list: after every third digit that
is followed by more digits, insert a comma.  This reproduces the regex
`replace(/\B(?=(\d\x7b3\x7d)+(?!\d))/g, ",")` of `formatETB` as applied to the
integer part of a `toFixed(2)` string. -/
def insertCommasRev : ℕ → List Char → List Char
  | _, [] => []
  | k, c :: cs =>
    if k = 3 then ',' :: c :: insertCommasRev 1 cs
    else c :: insertCommasRev (k + 1) cs

/-- `formatETB` (lines 10-13): `toFixed(2)` (round to the nearest multiple of
0.01, ties toward positive infinity, per the ECMAScript `toFixed` spec) and
comma thousands separators.  The NaN guard of the source is unrepresentable
over ℚ and has no counterpart here. -/
def formatETB (amount : ℚ) : String :=
  let cents : ℤ := Int.floor (amount * 100 + 1 / 2)
  let n : ℕ := cents.natAbs
  let intPartDigits := Nat.toDigits 10 (n / 100)
  let fracPart := n % 100
  let fracDigits := if fracPart < 10 then '0' :: Nat.toDigits 10 fracPart
    else Nat.toDigits 10 fracPart
  let sign := if cents < 0 then "-" else ""
  sign ++ String.mk ((insertCommasRev 0 intPartDigits.reverse).reverse)
    ++ "." ++ String.mk fracDigits

/-- `calculateTotalCost` (lines 171-221), the orchestrator: route
optimization, the four calculators, aggregation.  The thrown unknown-truck
failure of the transport calculator propagates unmodified (the source has no
try/catch in this function). -/
def calculateTotalCost (inputs : ShipmentInput) : Except CalcError CalculationResult :=
  let actualDistanceKm : ℚ :=
    if 3 ≤ inputs.numStops then inputs.distanceKm * (1 - OPTIMIZATION_DISCOUNT)
    else inputs.distanceKm
  let optimizationNotes : OptimizationNote :=
    if 3 ≤ inputs.numStops then
      OptimizationNote.routeOptimizationApplied inputs.distanceKm actualDistanceKm inputs.numStops
    else OptimizationNote.noRouteOptimizationApplied
  match calculateTransportCost actualDistanceKm inputs.truckType inputs.estimatedDays
      inputs.driverCost inputs.fuelPrice inputs.truckRentalCost with
  | Except.error e => Except.error e
  | Except.ok transportResults =>
    let tariffResults := calculateTariffCost inputs.estimatedDays inputs.isExport
      inputs.handlingCost inputs.inspectionFee
    let dutyResults := calculateCustomsDuty inputs.cifValue inputs.customsDutyRate inputs.isExport
    let transportSubtotal := transportResults.totalTransportCost
    let dutyCost := dutyResults.dutyCost
    let tariffSubtotal := tariffResults.totalTariffCost + dutyCost
    let taxResults := calculateTaxCost transportSubtotal inputs.vatRate inputs.whtRate
    let totalTax := taxResults.totalTax
    let totalOptimizedCost := transportSubtotal + tariffSubtotal + totalTax
    Except.ok {
      totalOptimizedCost := formatETB totalOptimizedCost,
      transport := transportResults,
      tariffs := tariffResults,
      duty := dutyResults,
      tax := taxResults,
      rates := inputs,
      optimization := {
        originalDistance := inputs.distanceKm,
        actualDistance := actualDistanceKm,
        notes := optimizationNotes,
        numStops := inputs.numStops },
      isExport := inputs.isExport }

/- ===== Concrete inputs used by witnesses and the end-to-end example ===== -/

/-- The end-to-end example input of the spec (§8). -/
def exampleInput : ShipmentInput where
  distanceKm := 500
  estimatedDays := 10
  truckType := "40FT_DRY_VAN"
  isExport := false
  numStops := 1
  cifValue := 100000
  customsDutyRate := 10
  driverCost := 1000
  fuelPrice := 50
  truckRentalCost := 2000
  vatRate := 15
  whtRate := 2
  handlingCost := 1500
  inspectionFee := 500

/-- The engine's result on `exampleInput`, written out in full precision
(all the non-integer amounts have denominator 139 = the reduced denominator
of 2.78). -/
def exampleRes : CalculationResult where
  totalOptimizedCost := "58,005.58"
  transport := {
    fuelCostETB := 1250000 / 139,
    driverCostETB := 10000,
    truckRentETB := 20000,
    totalTransportCost := 5420000 / 139,
    totalLitersUsed := 25000 / 139 }
  tariffs := {
    totalTariffCost := 2384,
    breakdown := [
      { name := "Dry Port Handling", cost := 1500,
        notes := { base := TariffNote.baseRateOneContainer, exportDiscountApplied := false } },
      { name := "Customs Inspection Fee", cost := 500,
        notes := { base := TariffNote.fixedMandatoryFee, exportDiscountApplied := false } },
      { name := "Storage Penalty", cost := 384,
        notes := { base := TariffNote.penaltyApplied 2 8, exportDiscountApplied := false } } ] }
  duty := { dutyCost := 10000, dutyNotes := DutyNote.calculatedOn 100000 10 }
  tax := { vatCost := 813000 / 139, whtCost := 108400 / 139, totalTax := 921400 / 139 }
  rates := exampleInput
  optimization := {
    originalDistance := 500,
    actualDistance := 500,
    notes := OptimizationNote.noRouteOptimizationApplied,
    numStops := 1 }
  isExport := false

/-- A variant of the example input that differs only in the tariff/duty
inputs (export flag, CIF value, duty rate, handling cost, inspection fee). -/
def exampleTariffVariant : ShipmentInput :=
  { exampleInput with
    isExport := true, cifValue := 55555, customsDutyRate := 0,
    handlingCost := 0, inspectionFee := 777 }

/-- An input whose truck type has no profile in the rate table. -/
def exampleUnknownTruck : ShipmentInput :=
  { exampleInput with truckType := "20FT_TIPPER" }

/- ===== Helper lemmas ===== -/

theorem stripParen_handling : stripParen "Dry Port Handling (40ft)" = "Dry Port Handling" := by
  decide

theorem stripParen_inspection :
    stripParen "Customs Inspection Fee (Fixed)" = "Customs Inspection Fee" := by
  decide

theorem stripParen_storage :
    stripParen "Storage Penalty (40ft, per day after 8 days)" = "Storage Penalty" := by
  decide

theorem handling_step (d hc : ℚ) (e : Bool) (hhc : 0 ≤ hc) (acc : ℚ × List BreakdownItem) :
    tariffStep d e acc
      { name := "Dry Port Handling (40ft)", rate_birr := hc,
        unit := TariffUnit.per_container, is_export_eligible := true }
      = if 0 < hc then
          (acc.1 + (if e then hc * (1 - EXPORT_DISCOUNT_FACTOR) else hc),
           acc.2 ++ [{ name := "Dry Port Handling",
                       cost := if e then hc * (1 - EXPORT_DISCOUNT_FACTOR) else hc,
                       notes := { base := TariffNote.baseRateOneContainer,
                                  exportDiscountApplied := e } }])
        else acc := by
  rcases lt_or_eq_of_le hhc with h | h
  · rw [if_pos h]
    cases e
    · simp [tariffStep, stripParen_handling, h]
    · simp [tariffStep, stripParen_handling, h]
  · rw [if_neg (by rw [← h]; exact lt_irrefl 0)]
    rw [← h]
    cases e <;> simp [tariffStep]

theorem inspection_step (d fee : ℚ) (e : Bool) (hfee : 0 ≤ fee) (acc : ℚ × List BreakdownItem) :
    tariffStep d e acc
      { name := "Customs Inspection Fee (Fixed)", rate_birr := fee,
        unit := TariffUnit.per_shipment, is_export_eligible := false }
      = if 0 < fee then
          (acc.1 + fee,
           acc.2 ++ [{ name := "Customs Inspection Fee", cost := fee,
                       notes := { base := TariffNote.fixedMandatoryFee,
                                  exportDiscountApplied := false } }])
        else acc := by
  rcases lt_or_eq_of_le hfee with h | h
  · rw [if_pos h]
    simp [tariffStep, stripParen_inspection, h]
  · rw [if_neg (by rw [← h]; exact lt_irrefl 0)]
    rw [← h]
    simp [tariffStep]

theorem storage_step (d : ℚ) (e : Bool) (acc : ℚ × List BreakdownItem) :
    tariffStep d e acc
      { name := "Storage Penalty (40ft, per day after 8 days)", rate_birr := 192,
        unit := TariffUnit.per_day_after_free_period 8, is_export_eligible := false }
      = (acc.1 + (if 8 < d then (d - 8) * 192 else 0),
         acc.2 ++ [{ name := "Storage Penalty",
                     cost := if 8 < d then (d - 8) * 192 else 0,
                     notes := { base := if 8 < d then TariffNote.penaltyApplied (d - 8) 8
                                  else TariffNote.noPenaltyWithinFreePeriod,
                                exportDiscountApplied := false } }]) := by
  rcases le_or_lt d 8 with h | h
  · have hmax : max 0 (d - 8) = 0 := max_eq_left (by linarith)
    have hnot : ¬ (8 : ℚ) < d := not_lt.mpr h
    simp [tariffStep, stripParen_storage, hmax, hnot]
  · have hmax : max 0 (d - 8) = d - 8 := max_eq_right (by linarith)
    have hpos : (0 : ℚ) < d - 8 := by linarith
    simp [tariffStep, stripParen_storage, hmax, hpos, h]

theorem pushStep_sum (acc : ℚ × List BreakdownItem) (c : Prop) [Decidable c]
    (nm : String) (fc : ℚ) (ns : TariffNotes)
    (h : acc.1 = (acc.2.map BreakdownItem.cost).sum) :
    (if c then (acc.1 + fc, acc.2 ++ [⟨nm, fc, ns⟩]) else acc).1
      = ((if c then (acc.1 + fc, acc.2 ++ [⟨nm, fc, ns⟩]) else acc).2.map
          BreakdownItem.cost).sum := by
  split
  · simp [h]
  · exact h

theorem tariffStep_preserves_sum (d : ℚ) (e : Bool) (acc : ℚ × List BreakdownItem)
    (t : TariffRule) (h : acc.1 = (acc.2.map BreakdownItem.cost).sum) :
    (tariffStep d e acc t).1 = (((tariffStep d e acc t).2).map BreakdownItem.cost).sum := by
  simp only [tariffStep]
  exact pushStep_sum acc _ _ _ _ h

theorem foldl_tariff_sum (d : ℚ) (e : Bool) (l : List TariffRule) :
    ∀ acc : ℚ × List BreakdownItem,
      acc.1 = (acc.2.map BreakdownItem.cost).sum →
      (l.foldl (tariffStep d e) acc).1
        = (((l.foldl (tariffStep d e) acc).2).map BreakdownItem.cost).sum := by
  induction l with
  | nil => intro acc h; simpa using h
  | cons t ts ih =>
    intro acc h
    simp only [List.foldl_cons]
    exact ih _ (tariffStep_preserves_sum d e acc t h)

/-- The running tariff total is always the sum of the costs of the reported
breakdown items (both are pushed in the same branch of the loop). -/
theorem totalTariff_eq_sum (d : ℚ) (e : Bool) (hc fee : ℚ) :
    (calculateTariffCost d e hc fee).totalTariffCost
      = (((calculateTariffCost d e hc fee).breakdown).map BreakdownItem.cost).sum := by
  simp only [calculateTariffCost]
  exact foldl_tariff_sum d e (DYNAMIC_TARIFFS hc fee) (0, []) (by simp)

/-- Closed form of the tariff calculator for non-negative handling and
inspection rates (the spec's input domain). -/
theorem tariffCost_closed (d hc fee : ℚ) (e : Bool) (hhc : 0 ≤ hc) (hfee : 0 ≤ fee) :
    calculateTariffCost d e hc fee = {
      totalTariffCost := (if e then hc * (1 - EXPORT_DISCOUNT_FACTOR) else hc) + fee
        + (if 8 < d then (d - 8) * 192 else 0),
      breakdown :=
        (if 0 < hc then
          [⟨"Dry Port Handling", if e then hc * (1 - EXPORT_DISCOUNT_FACTOR) else hc,
            ⟨TariffNote.baseRateOneContainer, e⟩⟩]
          else [])
        ++ (if 0 < fee then
          [⟨"Customs Inspection Fee", fee, ⟨TariffNote.fixedMandatoryFee, false⟩⟩]
          else [])
        ++ [⟨"Storage Penalty", if 8 < d then (d - 8) * 192 else 0,
            ⟨if 8 < d then TariffNote.penaltyApplied (d - 8) 8
              else TariffNote.noPenaltyWithinFreePeriod, false⟩⟩] } := by
  simp only [calculateTariffCost, DYNAMIC_TARIFFS, List.foldl_cons, List.foldl_nil]
  rw [handling_step d hc e hhc, inspection_step d fee e hfee, storage_step]
  rcases lt_or_eq_of_le hhc with h1 | h1 <;> rcases lt_or_eq_of_le hfee with h2 | h2
  · simp [h1, h2, add_assoc]
  · rw [← h2]
    simp [h1, add_assoc]
  · rw [← h1]
    cases e <;> simp [h2, add_assoc]
  · rw [← h1, ← h2]
    cases e <;> simp [add_assoc]

/-- Closed form of the transport calculator when the truck profile exists. -/
theorem transport_ok (distanceKm estimatedDays driverDailyWage fuelPrice truckRentalCost : ℚ)
    (truckType : String) (p : TruckProfile) (hp : TRUCK_PROFILES truckType = some p) :
    calculateTransportCost distanceKm truckType estimatedDays driverDailyWage fuelPrice
        truckRentalCost
      = Except.ok {
          fuelCostETB := distanceKm / p.fuel_efficiency_km_l * fuelPrice,
          driverCostETB := max 1 estimatedDays * driverDailyWage,
          truckRentETB := max 1 estimatedDays * truckRentalCost,
          totalTransportCost := distanceKm / p.fuel_efficiency_km_l * fuelPrice
            + max 1 estimatedDays * driverDailyWage + max 1 estimatedDays * truckRentalCost,
          totalLitersUsed := distanceKm / p.fuel_efficiency_km_l } := by
  simp [calculateTransportCost, hp]

/-- Every fuel efficiency in the rate table is nonzero, so the program never
divides a finite number by zero. -/
theorem fuel_efficiency_ne_zero (t : String) (p : TruckProfile)
    (hp : TRUCK_PROFILES t = some p) : p.fuel_efficiency_km_l ≠ 0 := by
  unfold TRUCK_PROFILES at hp
  split_ifs at hp <;>
    first
      | exact Option.noConfusion hp
      | (rw [Option.some.injEq] at hp; rw [← hp]; norm_num)

/-- The own-property table agrees with the full bracket lookup exactly on
profile hits. -/
theorem bracket_profile_iff (t : String) (p : TruckProfile) :
    truckProfilesBracket t = BracketLookup.profile p ↔ TRUCK_PROFILES t = some p := by
  unfold truckProfilesBracket
  cases h : TRUCK_PROFILES t with
  | some q => simp
  | none => split_ifs <;> simp

/-- On declared truck types the JavaScript-semantics transport calculator
agrees with the exact-rational model: every output is the finite number the
ℚ model computes. -/
theorem transportJs_agrees (distanceKm estimatedDays driverDailyWage fuelPrice
    truckRentalCost : ℚ) (truckType : String) (p : TruckProfile)
    (hp : TRUCK_PROFILES truckType = some p) :
    calculateTransportCostJs distanceKm truckType estimatedDays driverDailyWage fuelPrice
        truckRentalCost
      = (calculateTransportCost distanceKm truckType estimatedDays driverDailyWage fuelPrice
          truckRentalCost).map (fun tr =>
            ⟨JsValue.num tr.fuelCostETB, JsValue.num tr.driverCostETB,
             JsValue.num tr.truckRentETB, JsValue.num tr.totalTransportCost,
             JsValue.num tr.totalLitersUsed⟩) := by
  have hb : truckProfilesBracket truckType = BracketLookup.profile p :=
    (bracket_profile_iff truckType p).mpr hp
  rw [transport_ok distanceKm estimatedDays driverDailyWage fuelPrice truckRentalCost
    truckType p hp]
  simp [calculateTransportCostJs, hb, transportArith, JsValue.div, JsValue.mul,
    JsValue.add, Except.map]

theorem duty_import (cif rate : ℚ) (e : Bool) (h : e = true ∨ rate ≤ 0) :
    calculateCustomsDuty cif rate e = { dutyCost := 0, dutyNotes := DutyNote.importOnly } := by
  rw [calculateCustomsDuty, if_neg]
  rintro ⟨he, hr⟩
  rcases h with h | h
  · subst h
    simp at he
  · linarith

theorem duty_calculated (cif rate : ℚ) (h : 0 < rate) :
    calculateCustomsDuty cif rate false
      = { dutyCost := cif * (rate / 100), dutyNotes := DutyNote.calculatedOn cif rate } := by
  rw [calculateCustomsDuty, if_pos ⟨rfl, h⟩]

/-- Inversion of the orchestrator on a successful run: the truck profile
exists and every field of the result record is exactly the corresponding
sub-calculator output (transport on the adjusted distance, tariffs on the
unadjusted estimated days, tax on the transport subtotal, and the formatted
grand total). -/
theorem calculateTotalCost_ok (inputs : ShipmentInput) (res : CalculationResult)
    (h : calculateTotalCost inputs = Except.ok res) :
    ∃ p : TruckProfile, TRUCK_PROFILES inputs.truckType = some p
      ∧ calculateTransportCost
          (if 3 ≤ inputs.numStops then inputs.distanceKm * (1 - OPTIMIZATION_DISCOUNT)
            else inputs.distanceKm)
          inputs.truckType inputs.estimatedDays inputs.driverCost inputs.fuelPrice
          inputs.truckRentalCost = Except.ok res.transport
      ∧ res.tariffs = calculateTariffCost inputs.estimatedDays inputs.isExport
          inputs.handlingCost inputs.inspectionFee
      ∧ res.duty = calculateCustomsDuty inputs.cifValue inputs.customsDutyRate inputs.isExport
      ∧ res.tax = calculateTaxCost res.transport.totalTransportCost inputs.vatRate inputs.whtRate
      ∧ res.optimization.originalDistance = inputs.distanceKm
      ∧ res.optimization.actualDistance
          = (if 3 ≤ inputs.numStops then inputs.distanceKm * (1 - OPTIMIZATION_DISCOUNT)
            else inputs.distanceKm)
      ∧ res.optimization.numStops = inputs.numStops
      ∧ res.totalOptimizedCost
          = formatETB (res.transport.totalTransportCost
              + (res.tariffs.totalTariffCost + res.duty.dutyCost) + res.tax.totalTax)
      ∧ res.rates = inputs ∧ res.isExport = inputs.isExport := by
  rcases hp : TRUCK_PROFILES inputs.truckType with _ | p
  · simp only [calculateTotalCost, calculateTransportCost, hp] at h
    exact Except.noConfusion h
  · refine ⟨p, rfl, ?_⟩
    simp only [calculateTotalCost, calculateTransportCost, hp] at h
    rw [Except.ok.injEq] at h
    subst h
    refine ⟨by simp [calculateTransportCost, hp], rfl, rfl, rfl, rfl, rfl, rfl, rfl, rfl, rfl⟩

theorem floor_example_cents :
    Int.floor ((8062776 : ℚ) / 139 * 100 + 1 / 2) = 5800558 := by
  norm_num [Int.floor_eq_iff]

theorem formatETB_example : formatETB ((8062776 : ℚ) / 139) = "58,005.58" := by
  simp only [formatETB, floor_example_cents]
  decide

theorem transport_example :
    calculateTransportCost 500 "40FT_DRY_VAN" 10 1000 50 2000
      = Except.ok exampleRes.transport := by
  rw [transport_ok 500 10 1000 50 2000 "40FT_DRY_VAN"
    { fuel_efficiency_km_l := 2.78, capacity_teu := 2, type := "General Cargo" } rfl]
  have hmax : max (1 : ℚ) 10 = 10 := max_eq_right (by norm_num)
  norm_num [exampleRes, hmax, TransportResult.mk.injEq]

theorem tariff_example :
    calculateTariffCost 10 false 1500 500 = exampleRes.tariffs := by
  rw [tariffCost_closed 10 1500 500 false (by norm_num) (by norm_num)]
  norm_num [exampleRes, TariffResult.mk.injEq, BreakdownItem.mk.injEq, TariffNotes.mk.injEq]

theorem duty_example :
    calculateCustomsDuty 100000 10 false = exampleRes.duty := by
  rw [duty_calculated 100000 10 (by norm_num)]
  norm_num [exampleRes, DutyResult.mk.injEq]

theorem tax_example :
    calculateTaxCost (5420000 / 139) 15 2 = exampleRes.tax := by
  norm_num [calculateTaxCost, exampleRes, TaxResult.mk.injEq]

/-- The engine's full output on the spec's end-to-end example input. -/
theorem totalCost_example : calculateTotalCost exampleInput = Except.ok exampleRes := by
  have h31 : ¬ ((3 : ℤ) ≤ exampleInput.numStops) := by norm_num [exampleInput]
  simp only [calculateTotalCost, if_neg h31]
  have harg : exampleInput.distanceKm = 500 := rfl
  rw [harg]
  have htr : calculateTransportCost 500 exampleInput.truckType exampleInput.estimatedDays
      exampleInput.driverCost exampleInput.fuelPrice exampleInput.truckRentalCost
      = Except.ok exampleRes.transport := transport_example
  have htar : calculateTariffCost exampleInput.estimatedDays exampleInput.isExport
      exampleInput.handlingCost exampleInput.inspectionFee = exampleRes.tariffs :=
    tariff_example
  have hduty : calculateCustomsDuty exampleInput.cifValue exampleInput.customsDutyRate
      exampleInput.isExport = exampleRes.duty := duty_example
  have htax : calculateTaxCost exampleRes.transport.totalTransportCost exampleInput.vatRate
      exampleInput.whtRate = exampleRes.tax := tax_example
  simp only [htr, htar, hduty, htax]
  have hsum : exampleRes.transport.totalTransportCost
      + (exampleRes.tariffs.totalTariffCost + exampleRes.duty.dutyCost)
      + exampleRes.tax.totalTax = (8062776 : ℚ) / 139 := by
    norm_num [exampleRes]
  rw [hsum, formatETB_example]
  rfl

/- ===== Claim theorems ===== -/

/-- C1: on every input on which the engine returns a result, each
calculator's reported total equals the exact sum of its own reported
components (transport total = fuel cost + driver cost + rental cost; tax
total = VAT + WHT; tariff total = sum of the costs in the breakdown list),
and the displayed grand total is the display formatting of
transport subtotal + (tariff total + duty cost) + total tax, with no
rounding before that final formatting. -/
theorem C1_additive_consistency (inputs : ShipmentInput) (res : CalculationResult)
    (h : calculateTotalCost inputs = Except.ok res) :
    res.transport.totalTransportCost
        = res.transport.fuelCostETB + res.transport.driverCostETB + res.transport.truckRentETB
      ∧ res.tax.totalTax = res.tax.vatCost + res.tax.whtCost
      ∧ res.tariffs.totalTariffCost = ((res.tariffs.breakdown).map BreakdownItem.cost).sum
      ∧ res.totalOptimizedCost
          = formatETB (res.transport.totalTransportCost
              + (res.tariffs.totalTariffCost + res.duty.dutyCost) + res.tax.totalTax) := by
  obtain ⟨p, hp, htr, htar, hduty, htax, ho1, ho2, ho3, hfmt, hrates, hex⟩ :=
    calculateTotalCost_ok inputs res h
  refine ⟨?_, ?_, ?_, hfmt⟩
  · rw [transport_ok _ _ _ _ _ _ p hp, Except.ok.injEq] at htr
    rw [← htr]
  · rw [htax]
    rfl
  · rw [htar]
    exact totalTariff_eq_sum inputs.estimatedDays inputs.isExport
      inputs.handlingCost inputs.inspectionFee

/-- Witness for C1: the additive-consistency conclusion at the end-to-end
example input. -/
theorem C1_witness :
    exampleRes.transport.totalTransportCost
        = exampleRes.transport.fuelCostETB + exampleRes.transport.driverCostETB
          + exampleRes.transport.truckRentETB
      ∧ exampleRes.tax.totalTax = exampleRes.tax.vatCost + exampleRes.tax.whtCost
      ∧ exampleRes.tariffs.totalTariffCost
          = ((exampleRes.tariffs.breakdown).map BreakdownItem.cost).sum
      ∧ exampleRes.totalOptimizedCost
          = formatETB (exampleRes.transport.totalTransportCost
              + (exampleRes.tariffs.totalTariffCost + exampleRes.duty.dutyCost)
              + exampleRes.tax.totalTax) :=
  C1_additive_consistency exampleInput exampleRes totalCost_example

/-- C2 counterexample: on the spec's end-to-end example input the engine's
displayed grand total is "58,005.58", not ≈57,005.59 as the claim states;
the full-precision grand total 8062776/139 ≈ 58005.58 exceeds the claimed
57005.59 by more than 999. -/
theorem C2_counterexample :
    calculateTotalCost exampleInput = Except.ok exampleRes
      ∧ exampleRes.totalOptimizedCost = "58,005.58"
      ∧ exampleRes.totalOptimizedCost ≠ "57,005.59"
      ∧ exampleRes.transport.totalTransportCost
          + (exampleRes.tariffs.totalTariffCost + exampleRes.duty.dutyCost)
          + exampleRes.tax.totalTax = 8062776 / 139
      ∧ (999 : ℚ) < 8062776 / 139 - 57005.59 :=
  ⟨totalCost_example, rfl, by decide, by norm_num [exampleRes], by norm_num⟩

/-- C2 (amended): the end-to-end example as in the claim, except that the
grand total displays as 58,005.58 (the claimed ≈57,005.59 is an arithmetic
slip: even the claim's own rounded components sum to ≈58,005.59, and the
full-precision total formats to "58,005.58"). -/
theorem C2_end_to_end_example :
    calculateTotalCost exampleInput = Except.ok exampleRes
      ∧ exampleRes.optimization.actualDistance = 500
      ∧ formatETB exampleRes.transport.fuelCostETB = "8,992.81"
      ∧ exampleRes.transport.driverCostETB = 10000
      ∧ exampleRes.transport.truckRentETB = 20000
      ∧ formatETB exampleRes.transport.totalTransportCost = "38,992.81"
      ∧ exampleRes.tariffs.totalTariffCost = 2384
      ∧ (∃ item ∈ exampleRes.tariffs.breakdown,
          item.name = "Storage Penalty" ∧ item.cost = 384)
      ∧ exampleRes.duty.dutyCost = 10000
      ∧ exampleRes.tariffs.totalTariffCost + exampleRes.duty.dutyCost = 12384
      ∧ formatETB exampleRes.tax.vatCost = "5,848.92"
      ∧ formatETB exampleRes.tax.whtCost = "779.86"
      ∧ formatETB exampleRes.tax.totalTax = "6,628.78"
      ∧ exampleRes.totalOptimizedCost = "58,005.58" := by
  have f1 : Int.floor ((1250000 : ℚ) / 139 * 100 + 1 / 2) = 899281 := by
    norm_num [Int.floor_eq_iff]
  have e1 : formatETB ((1250000 : ℚ) / 139) = "8,992.81" := by
    simp only [formatETB, f1]
    decide
  have f2 : Int.floor ((5420000 : ℚ) / 139 * 100 + 1 / 2) = 3899281 := by
    norm_num [Int.floor_eq_iff]
  have e2 : formatETB ((5420000 : ℚ) / 139) = "38,992.81" := by
    simp only [formatETB, f2]
    decide
  have f3 : Int.floor ((813000 : ℚ) / 139 * 100 + 1 / 2) = 584892 := by
    norm_num [Int.floor_eq_iff]
  have e3 : formatETB ((813000 : ℚ) / 139) = "5,848.92" := by
    simp only [formatETB, f3]
    decide
  have f4 : Int.floor ((108400 : ℚ) / 139 * 100 + 1 / 2) = 77986 := by
    norm_num [Int.floor_eq_iff]
  have e4 : formatETB ((108400 : ℚ) / 139) = "779.86" := by
    simp only [formatETB, f4]
    decide
  have f5 : Int.floor ((921400 : ℚ) / 139 * 100 + 1 / 2) = 662878 := by
    norm_num [Int.floor_eq_iff]
  have e5 : formatETB ((921400 : ℚ) / 139) = "6,628.78" := by
    simp only [formatETB, f5]
    decide
  refine ⟨totalCost_example, rfl, e1, rfl, rfl, e2, rfl, ?_, rfl,
    by norm_num [exampleRes], e3, e4, e5, rfl⟩
  refine ⟨⟨"Storage Penalty", 384, ⟨TariffNote.penaltyApplied 2 8, false⟩⟩, ?_, rfl, rfl⟩
  simp [exampleRes]

/-- C3: on every input on which the engine returns, the adjusted distance
recorded in the result (and passed to the Transport Calculator) equals the
original distance when numStops < 3, and the original distance × 0.90
exactly when numStops ≥ 3. -/
theorem C3_route_optimization (inputs : ShipmentInput) (res : CalculationResult)
    (h : calculateTotalCost inputs = Except.ok res) :
    (inputs.numStops < 3 → res.optimization.actualDistance = inputs.distanceKm)
      ∧ (3 ≤ inputs.numStops →
          res.optimization.actualDistance = inputs.distanceKm * (90 / 100))
      ∧ calculateTransportCost res.optimization.actualDistance inputs.truckType
          inputs.estimatedDays inputs.driverCost inputs.fuelPrice inputs.truckRentalCost
        = Except.ok res.transport := by
  obtain ⟨p, hp, htr, htar, hduty, htax, ho1, ho2, ho3, hfmt, hrates, hex⟩ :=
    calculateTotalCost_ok inputs res h
  refine ⟨?_, ?_, ?_⟩
  · intro hlt
    rw [ho2, if_neg (not_le.mpr hlt)]
  · intro hge
    rw [ho2, if_pos hge]
    congr 1
    norm_num [OPTIMIZATION_DISCOUNT]
  · rw [ho2]
    exact htr

/-- Witness for C3: the route-optimization conclusion at the end-to-end
example input (numStops = 1 < 3, adjusted distance 500 unchanged). -/
theorem C3_witness :
    (exampleInput.numStops < 3
        → exampleRes.optimization.actualDistance = exampleInput.distanceKm)
      ∧ (3 ≤ exampleInput.numStops →
          exampleRes.optimization.actualDistance = exampleInput.distanceKm * (90 / 100))
      ∧ calculateTransportCost exampleRes.optimization.actualDistance exampleInput.truckType
          exampleInput.estimatedDays exampleInput.driverCost exampleInput.fuelPrice
          exampleInput.truckRentalCost = Except.ok exampleRes.transport :=
  C3_route_optimization exampleInput exampleRes totalCost_example

/-- C4: the storage-penalty rule costs 0 when estimatedDays ≤ 8 and
(estimatedDays − 8) × 192.00 when estimatedDays > 8, computed from the
unadjusted estimated days (the orchestrator hands the tariff calculator
`inputs.estimatedDays`, never the optimized distance); even when its cost is
0 the rule still appears in the itemized breakdown with the no-penalty note,
because its configured rate 192.00 is positive. -/
theorem C4_storage_penalty (d hc fee : ℚ) (e : Bool) :
    (∃ item ∈ (calculateTariffCost d e hc fee).breakdown,
        item.name = "Storage Penalty"
          ∧ (d ≤ 8 → item.cost = 0 ∧ item.notes.base = TariffNote.noPenaltyWithinFreePeriod)
          ∧ (8 < d → item.cost = (d - 8) * 192))
      ∧ ∀ (inputs : ShipmentInput) (res : CalculationResult),
          calculateTotalCost inputs = Except.ok res →
          res.tariffs = calculateTariffCost inputs.estimatedDays inputs.isExport
            inputs.handlingCost inputs.inspectionFee := by
  constructor
  · simp only [calculateTariffCost, DYNAMIC_TARIFFS, List.foldl_cons, List.foldl_nil]
    rw [storage_step]
    refine ⟨⟨"Storage Penalty", (if 8 < d then (d - 8) * 192 else 0),
      ⟨(if 8 < d then TariffNote.penaltyApplied (d - 8) 8
        else TariffNote.noPenaltyWithinFreePeriod), false⟩⟩, ?_, rfl, ?_, ?_⟩
    · simp
    · intro hle
      rw [if_neg (not_lt.mpr hle), if_neg (not_lt.mpr hle)]
      exact ⟨rfl, rfl⟩
    · intro hlt
      rw [if_pos hlt]
  · intro inputs res h
    obtain ⟨p, hp, htr, htar, hrest⟩ := calculateTotalCost_ok inputs res h
    exact htar

/-- Witness for C4: at estimatedDays = 10 the storage penalty line costs
2 × 192 = 384; at estimatedDays = 5 it still appears, at cost 0 with the
no-penalty note. -/
theorem C4_witness :
    (∃ item ∈ (calculateTariffCost 10 false 1500 500).breakdown,
        item.name = "Storage Penalty" ∧ item.cost = 384)
      ∧ (∃ item ∈ (calculateTariffCost 5 false 1500 500).breakdown,
        item.name = "Storage Penalty" ∧ item.cost = 0
          ∧ item.notes.base = TariffNote.noPenaltyWithinFreePeriod) := by
  constructor
  · obtain ⟨⟨item, hmem, hname, hle, hlt⟩, _⟩ := C4_storage_penalty 10 1500 500 false
    refine ⟨item, hmem, hname, ?_⟩
    rw [hlt (by norm_num)]
    norm_num
  · obtain ⟨⟨item, hmem, hname, hle, hlt⟩, _⟩ := C4_storage_penalty 5 1500 500 false
    obtain ⟨hc0, hnote⟩ := hle (by norm_num)
    exact ⟨item, hmem, hname, hc0, hnote⟩

/-- C5: with isExport = true the single export-eligible rule of the three
(the per-container handling fee; the inspection fee and storage penalty are
not eligible) is charged at exactly base × 0.40 (= base × (1 −
EXPORT_DISCOUNT_FACTOR), exact over ℚ, hence within any tolerance), while
the inspection fee and the storage penalty are charged at full base cost;
with isExport = false no rule is discounted.  Stated on the spec's
non-negative rate domain. -/
theorem C5_export_discount (d hc fee : ℚ) (hhc : 0 ≤ hc) (hfee : 0 ≤ fee) :
    (DYNAMIC_TARIFFS hc fee).map TariffRule.is_export_eligible = [true, false, false]
      ∧ (calculateTariffCost d true hc fee).totalTariffCost
          = hc * (40 / 100) + fee + (if 8 < d then (d - 8) * 192 else 0)
      ∧ (calculateTariffCost d false hc fee).totalTariffCost
          = hc + fee + (if 8 < d then (d - 8) * 192 else 0)
      ∧ (0 < hc → ∃ item ∈ (calculateTariffCost d true hc fee).breakdown,
          item.name = "Dry Port Handling" ∧ item.cost = hc * (1 - EXPORT_DISCOUNT_FACTOR)
            ∧ item.cost = hc * (40 / 100))
      ∧ (0 < fee → ∃ item ∈ (calculateTariffCost d true hc fee).breakdown,
          item.name = "Customs Inspection Fee" ∧ item.cost = fee
            ∧ item.notes.exportDiscountApplied = false)
      ∧ (∀ item ∈ (calculateTariffCost d false hc fee).breakdown,
          item.notes.exportDiscountApplied = false) := by
  have hcl := tariffCost_closed d hc fee true hhc hfee
  have hcl2 := tariffCost_closed d hc fee false hhc hfee
  have h40 : hc * (1 - EXPORT_DISCOUNT_FACTOR) = hc * (40 / 100) := by
    norm_num [EXPORT_DISCOUNT_FACTOR]
  refine ⟨rfl, ?_, ?_, ?_, ?_, ?_⟩
  · rw [hcl]
    simp only [if_true]
    rw [h40]
  · rw [hcl2]
    simp
  · intro h0
    rw [hcl]
    refine ⟨⟨"Dry Port Handling", hc * (1 - EXPORT_DISCOUNT_FACTOR),
      ⟨TariffNote.baseRateOneContainer, true⟩⟩, ?_, rfl, rfl, h40⟩
    simp [h0]
  · intro h0
    rw [hcl]
    refine ⟨⟨"Customs Inspection Fee", fee, ⟨TariffNote.fixedMandatoryFee, false⟩⟩,
      ?_, rfl, rfl, rfl⟩
    simp [h0]
  · rw [hcl2]
    intro item him
    simp only [List.mem_append] at him
    rcases him with (him | him) | him
    · by_cases h0 : 0 < hc
      · rw [if_pos h0] at him
        simp at him
        subst him
        rfl
      · rw [if_neg h0] at him
        simp at him
    · by_cases h0 : 0 < fee
      · rw [if_pos h0] at him
        simp at him
        subst him
        rfl
      · rw [if_neg h0] at him
        simp at him
    · simp at him
      subst him
      rfl

/-- Witness for C5 at handling 1500, inspection 500, 10 estimated days:
export total 1500 × 0.40 + 500 + 384 = 1484 versus import total 2384, and
the discounted handling line costs 600. -/
theorem C5_witness :
    (DYNAMIC_TARIFFS 1500 500).map TariffRule.is_export_eligible = [true, false, false]
      ∧ (calculateTariffCost 10 true 1500 500).totalTariffCost = 1484
      ∧ (calculateTariffCost 10 false 1500 500).totalTariffCost = 2384
      ∧ (∃ item ∈ (calculateTariffCost 10 true 1500 500).breakdown,
          item.name = "Dry Port Handling" ∧ item.cost = 600) := by
  obtain ⟨hmap, h2, h3, h4, h5, h6⟩ :=
    C5_export_discount 10 1500 500 (by norm_num) (by norm_num)
  refine ⟨hmap, ?_, ?_, ?_⟩
  · rw [h2]
    norm_num
  · rw [h3]
    norm_num
  · obtain ⟨item, hmem, hname, hcost, hcost40⟩ := h4 (by norm_num)
    refine ⟨item, hmem, hname, ?_⟩
    rw [hcost40]
    norm_num

/-- C6: for every input with a known truck type, billable days =
max(1, estimatedDays) (so estimatedDays ≤ 0 is charged as a single day for
driver and rental), fuel consumed = distance / the profile's fuel
efficiency, fuel cost = consumed × fuel price, driver cost = billable days ×
daily wage, rental cost = billable days × daily rental rate, and the
transport total is the sum of the three costs. -/
theorem C6_transport_calculator (distanceKm estimatedDays driverDailyWage fuelPrice
    truckRentalCost : ℚ) (truckType : String) (p : TruckProfile)
    (hp : TRUCK_PROFILES truckType = some p) :
    calculateTransportCost distanceKm truckType estimatedDays driverDailyWage fuelPrice
        truckRentalCost
      = Except.ok ⟨distanceKm / p.fuel_efficiency_km_l * fuelPrice,
          max 1 estimatedDays * driverDailyWage,
          max 1 estimatedDays * truckRentalCost,
          distanceKm / p.fuel_efficiency_km_l * fuelPrice
            + max 1 estimatedDays * driverDailyWage + max 1 estimatedDays * truckRentalCost,
          distanceKm / p.fuel_efficiency_km_l⟩
      ∧ (estimatedDays ≤ 0 → max 1 estimatedDays = 1) :=
  ⟨transport_ok distanceKm estimatedDays driverDailyWage fuelPrice truckRentalCost
      truckType p hp,
    fun hle => max_eq_left (by linarith)⟩

/-- Witness for C6 on the reefer profile with estimatedDays = 0: one day is
still billed. -/
theorem C6_witness :
    calculateTransportCost 100 "40FT_REEFER" 0 1000 50 2000
      = Except.ok ⟨100 / (2.5 : ℚ) * 50, max 1 (0 : ℚ) * 1000, max 1 (0 : ℚ) * 2000,
          100 / (2.5 : ℚ) * 50 + max 1 (0 : ℚ) * 1000 + max 1 (0 : ℚ) * 2000,
          100 / (2.5 : ℚ)⟩
      ∧ ((0 : ℚ) ≤ 0 → max 1 (0 : ℚ) = 1) :=
  C6_transport_calculator 100 0 1000 50 2000 "40FT_REEFER"
    ⟨2.5, 2, "Refrigerated Cargo"⟩ rfl

/-- C7: the customs duty is 0 with the fixed import-only note whenever
isExport = true or the duty rate ≤ 0 (so isExport = true forces zero duty
regardless of rate and CIF value); otherwise duty = cifValue × (rate/100)
with the note carrying the CIF value and the rate used. -/
theorem C7_customs_duty (cif rate : ℚ) (e : Bool) :
    ((e = true ∨ rate ≤ 0) →
        calculateCustomsDuty cif rate e = ⟨0, DutyNote.importOnly⟩)
      ∧ (e = false → 0 < rate →
        calculateCustomsDuty cif rate e
          = ⟨cif * (rate / 100), DutyNote.calculatedOn cif rate⟩) := by
  constructor
  · exact duty_import cif rate e
  · intro he hr
    subst he
    exact duty_calculated cif rate hr

/-- Witness for C7 at CIF 100000 and rate 10: export gives zero duty with
the fixed note, import gives 100000 × 10/100 with the detailed note. -/
theorem C7_witness :
    calculateCustomsDuty 100000 10 true = ⟨0, DutyNote.importOnly⟩
      ∧ calculateCustomsDuty 100000 10 false
        = ⟨100000 * ((10 : ℚ) / 100), DutyNote.calculatedOn 100000 10⟩ :=
  ⟨(C7_customs_duty 100000 10 true).1 (Or.inl rfl),
    (C7_customs_duty 100000 10 false).2 rfl (by norm_num)⟩

/-- C8: the tax is computed only on the transport subtotal — two inputs that
agree on distanceKm, truckType, estimatedDays, numStops, driverCost,
fuelPrice, truckRentalCost, vatRate and whtRate but differ arbitrarily in
the tariff/duty inputs (cifValue, customsDutyRate, handlingCost,
inspectionFee, isExport) produce identical tax sub-results, and VAT/WHT are
transport subtotal × rate/100. -/
theorem C8_tax_base_noninterference (a b : ShipmentInput)
    (hdist : a.distanceKm = b.distanceKm) (hdays : a.estimatedDays = b.estimatedDays)
    (htruck : a.truckType = b.truckType) (hstops : a.numStops = b.numStops)
    (hdriver : a.driverCost = b.driverCost) (hfuel : a.fuelPrice = b.fuelPrice)
    (hrent : a.truckRentalCost = b.truckRentalCost)
    (hvat : a.vatRate = b.vatRate) (hwht : a.whtRate = b.whtRate) :
    (calculateTotalCost a).map CalculationResult.tax
        = (calculateTotalCost b).map CalculationResult.tax
      ∧ ∀ res : CalculationResult, calculateTotalCost a = Except.ok res →
          res.tax.vatCost = res.transport.totalTransportCost * (a.vatRate / 100)
            ∧ res.tax.whtCost = res.transport.totalTransportCost * (a.whtRate / 100) := by
  constructor
  · simp only [calculateTotalCost]
    rw [← hdist, ← hdays, ← htruck, ← hstops, ← hdriver, ← hfuel, ← hrent, ← hvat, ← hwht]
    cases htc : calculateTransportCost
        (if 3 ≤ a.numStops then a.distanceKm * (1 - OPTIMIZATION_DISCOUNT) else a.distanceKm)
        a.truckType a.estimatedDays a.driverCost a.fuelPrice a.truckRentalCost with
    | error err => simp [Except.map]
    | ok tr => simp [Except.map]
  · intro res h
    obtain ⟨p, hp, htr, htar, hduty, htax, hrest⟩ := calculateTotalCost_ok a res h
    rw [htax]
    exact ⟨rfl, rfl⟩

/-- Witness for C8: the example input versus its tariff/duty variant (export
flag flipped, different CIF value, zero duty rate, zero handling cost,
different inspection fee) have equal tax sub-results. -/
theorem C8_witness :
    (calculateTotalCost exampleInput).map CalculationResult.tax
        = (calculateTotalCost exampleTariffVariant).map CalculationResult.tax
      ∧ ∀ res : CalculationResult, calculateTotalCost exampleInput = Except.ok res →
          res.tax.vatCost = res.transport.totalTransportCost * (exampleInput.vatRate / 100)
            ∧ res.tax.whtCost
              = res.transport.totalTransportCost * (exampleInput.whtRate / 100) :=
  C8_tax_base_noninterference exampleInput exampleTariffVariant
    rfl rfl rfl rfl rfl rfl rfl rfl rfl

/-- C9 (code-bug evidence): the truck type "toString" has no profile in the
rate table, yet under JavaScript semantics the bracket lookup finds the
inherited `Object.prototype.toString` member, so the Transport Calculator
does not throw: it silently returns a partial result — NaN fuel cost, NaN
liters and NaN total alongside the real driver cost 10000 and rental cost
20000 — contradicting the claimed (and spec-intended) deterministic
UnknownTruckType failure with no NaN result.  For a key with no property at
all ("20FT_TIPPER") the calculator does fail with the unknown-truck-type
error, and the orchestrator, having no try/catch, returns exactly that
error. -/
theorem C9_prototype_key_nan :
    TRUCK_PROFILES "toString" = none
      ∧ calculateTransportCostJs 500 "toString" 10 1000 50 2000
        = Except.ok ⟨JsValue.nan, JsValue.num 10000, JsValue.num 20000,
            JsValue.nan, JsValue.nan⟩
      ∧ calculateTransportCostJs 500 "20FT_TIPPER" 10 1000 50 2000
        = Except.error CalcError.unknownTruckType
      ∧ calculateTotalCost exampleUnknownTruck = Except.error CalcError.unknownTruckType := by
  have hmax : max (1 : ℚ) 10 = 10 := max_eq_right (by norm_num)
  have hb : truckProfilesBracket "toString" = BracketLookup.inheritedObject := rfl
  refine ⟨rfl, ?_, rfl, ?_⟩
  · simp only [calculateTransportCostJs, hb]
    simp [transportArith, JsValue.div, JsValue.mul, JsValue.add, hmax]
    norm_num
  · have h : TRUCK_PROFILES exampleUnknownTruck.truckType = none := rfl
    simp [calculateTotalCost, calculateTransportCost, h]

/-- C10: the result's totalOptimizedCost field is not a number but the
display-formatted string — formatETB (round to 2 decimals, comma thousands
separators) applied to the full-precision grand total — while every nested
sub-result is the calculator's exact full-precision rational output; the
full-precision grand total is held in no field and is recovered exactly by
re-summing transport subtotal + (tariff total + duty) + tax total. -/
theorem C10_formatted_total (inputs : ShipmentInput) (res : CalculationResult)
    (h : calculateTotalCost inputs = Except.ok res) :
    res.totalOptimizedCost
        = formatETB (res.transport.totalTransportCost
            + (res.tariffs.totalTariffCost + res.duty.dutyCost) + res.tax.totalTax)
      ∧ res.tax = calculateTaxCost res.transport.totalTransportCost inputs.vatRate
          inputs.whtRate
      ∧ res.duty = calculateCustomsDuty inputs.cifValue inputs.customsDutyRate inputs.isExport
      ∧ res.tariffs = calculateTariffCost inputs.estimatedDays inputs.isExport
          inputs.handlingCost inputs.inspectionFee := by
  obtain ⟨p, hp, htr, htar, hduty, htax, ho1, ho2, ho3, hfmt, hrates, hex⟩ :=
    calculateTotalCost_ok inputs res h
  exact ⟨hfmt, htax, hduty, htar⟩

/-- Witness for C10 at the example input: the field is the formatted re-sum,
concretely the string "58,005.58". -/
theorem C10_witness :
    exampleRes.totalOptimizedCost
        = formatETB (exampleRes.transport.totalTransportCost
            + (exampleRes.tariffs.totalTariffCost + exampleRes.duty.dutyCost)
            + exampleRes.tax.totalTax)
      ∧ exampleRes.totalOptimizedCost = "58,005.58" :=
  ⟨(C10_formatted_total exampleInput exampleRes totalCost_example).1, rfl⟩
